import Mathlib

/-!
Shallow embedding of the MediConnect ML service core
(`app/ml/risk_predictor.py`, `app/ml/vitals_analyzer.py`, thresholds from
`app/config.py`).  All machine floats are modelled as exact rationals (ℚ);
Python dict lookups with `.get(key, default)` are modelled as `Option`
fields read with `getD`.  Quantities that are square roots of rationals in
the source (`np.std`, z-scores, forecast confidence bands) are carried as
their squares, with the comparisons rewritten equivalently (z > 3 ⟺ z² > 9);
every such spot is documented at its definition.
-/

namespace MediConnect

/-- `RiskLevel` enum from `app/schemas/prediction.py`. -/
inductive RiskLevel
  | low
  | medium
  | high
  | critical
deriving DecidableEq, Repr

/-- `settings.risk_low_threshold` from `app/config.py`. -/
def risk_low_threshold : ℚ := 0.3

/-- `settings.risk_medium_threshold` from `app/config.py`. -/
def risk_medium_threshold : ℚ := 0.6

/-- `settings.risk_high_threshold` from `app/config.py`. -/
def risk_high_threshold : ℚ := 0.8

/-- `RiskPredictor.determine_risk_level` from `app/ml/risk_predictor.py`. -/
def determine_risk_level (risk_score : ℚ) : RiskLevel :=
  if risk_score < risk_low_threshold then RiskLevel.low
  else if risk_score < risk_medium_threshold then RiskLevel.medium
  else if risk_score < risk_high_threshold then RiskLevel.high
  else RiskLevel.critical

/-- `RiskFactor` from `app/schemas/prediction.py`; descriptions in the source
are f-strings interpolating the raw feature value, carried here as the static
text of the template. -/
structure RiskFactor where
  factor : String
  impact : ℚ
  description : String
deriving DecidableEq, Repr

/-- `Recommendation` from `app/schemas/prediction.py`. -/
structure Recommendation where
  category : String
  priority : String
  description : String
  actionItems : List String
deriving DecidableEq, Repr

/-- The `(risk_score, confidence, risk_factors)` tuple each predictor's
`predict` returns, named as in the spec's data model. -/
structure ConditionAssessment where
  riskScore : ℚ
  confidence : ℚ
  riskFactors : List RiskFactor
deriving DecidableEq, Repr

/-- The feature dict handed to `HeartDiseasePredictor`'s scoring helpers:
only the keys those helpers read.  `none` models an absent dict key. -/
structure HeartData where
  age : Option ℚ := none
  restingBP : Option ℚ := none
  cholesterol : Option ℚ := none
  fastingBloodSugar : Option Bool := none
  exerciseInducedAngina : Option Bool := none
deriving DecidableEq, Repr

/-- `HeartDiseasePredictor._calculate_risk_score`: accumulated `score +=`
contributions written as one sum, then `min(score, 1.0)`. -/
def heart_calculate_risk_score (d : HeartData) : ℚ :=
  min ((if 65 < d.age.getD 50 then (0.3 : ℚ)
        else if 55 < d.age.getD 50 then 0.2
        else if 45 < d.age.getD 50 then 0.1 else 0)
     + (if 140 < d.restingBP.getD 120 then (0.25 : ℚ)
        else if 130 < d.restingBP.getD 120 then 0.15 else 0)
     + (if 240 < d.cholesterol.getD 200 then (0.2 : ℚ)
        else if 200 < d.cholesterol.getD 200 then 0.1 else 0)
     + (if d.fastingBloodSugar.getD false then (0.15 : ℚ) else 0)
     + (if d.exerciseInducedAngina.getD false then (0.2 : ℚ) else 0)) 1

/-- `HeartDiseasePredictor._identify_risk_factors`: conditional appends
modelled as concatenation of conditional singletons, in source order. -/
def heart_identify_risk_factors (d : HeartData) : List RiskFactor :=
  (if 55 < d.age.getD 50 then
    [⟨"Age", min ((d.age.getD 50 - 55) / 30) 0.3,
      "Age increases cardiovascular risk"⟩] else [])
  ++ (if 130 < d.restingBP.getD 120 then
    [⟨"High Blood Pressure", min ((d.restingBP.getD 120 - 130) / 50) 0.3,
      "Blood pressure is elevated"⟩] else [])
  ++ (if 200 < d.cholesterol.getD 200 then
    [⟨"High Cholesterol", min ((d.cholesterol.getD 200 - 200) / 100) 0.25,
      "Cholesterol level is high"⟩] else [])
  ++ (if d.exerciseInducedAngina.getD false then
    [⟨"Exercise-Induced Angina", 0.2,
      "Chest pain during exercise indicates cardiac stress"⟩] else [])

/-- `HeartDiseasePredictor.predict` (confidence fixed at 0.85). -/
def heart_predict (d : HeartData) : ConditionAssessment :=
  ⟨heart_calculate_risk_score d, 0.85, heart_identify_risk_factors d⟩

/-- Feature dict for `DiabetesPredictor`'s scoring helpers. -/
structure DiabetesData where
  age : Option ℚ := none
  bmi : Option ℚ := none
  glucoseLevel : Option ℚ := none
  bloodPressure : Option ℚ := none
deriving DecidableEq, Repr

/-- `DiabetesPredictor._calculate_risk_score`. -/
def diabetes_calculate_risk_score (d : DiabetesData) : ℚ :=
  min ((if 30 < d.bmi.getD 25 then (0.3 : ℚ)
        else if 25 < d.bmi.getD 25 then 0.15 else 0)
     + (if 126 < d.glucoseLevel.getD 100 then (0.4 : ℚ)
        else if 100 < d.glucoseLevel.getD 100 then 0.2 else 0)
     + (if 90 < d.bloodPressure.getD 80 then (0.15 : ℚ) else 0)
     + (if 45 < d.age.getD 40 then (0.15 : ℚ) else 0)) 1

/-- `DiabetesPredictor._identify_risk_factors`. -/
def diabetes_identify_risk_factors (d : DiabetesData) : List RiskFactor :=
  (if 25 < d.bmi.getD 25 then
    [⟨"Elevated BMI", min ((d.bmi.getD 25 - 25) / 15) 0.3,
      "BMI increases diabetes risk"⟩] else [])
  ++ (if 100 < d.glucoseLevel.getD 100 then
    [⟨"Elevated Glucose", min ((d.glucoseLevel.getD 100 - 100) / 100) 0.4,
      "Fasting glucose is elevated"⟩] else [])

/-- `DiabetesPredictor.predict` (confidence fixed at 0.82). -/
def diabetes_predict (d : DiabetesData) : ConditionAssessment :=
  ⟨diabetes_calculate_risk_score d, 0.82, diabetes_identify_risk_factors d⟩

/-- Feature dict for `StrokePredictor`'s scoring helpers. -/
structure StrokeData where
  age : Option ℚ := none
  hypertension : Option Bool := none
  heartDisease : Option Bool := none
  avgGlucoseLevel : Option ℚ := none
  bmi : Option ℚ := none
  smokingStatus : Option String := none
deriving DecidableEq, Repr

/-- The membership test `data.get("smokingStatus") in ["formerly smoked", "smokes"]`. -/
def smoking_flag (d : StrokeData) : Bool :=
  d.smokingStatus.getD "" = "formerly smoked" || d.smokingStatus.getD "" = "smokes"

/-- `StrokePredictor._calculate_risk_score`. -/
def stroke_calculate_risk_score (d : StrokeData) : ℚ :=
  min ((if 65 < d.age.getD 50 then (0.3 : ℚ)
        else if 55 < d.age.getD 50 then 0.15 else 0)
     + (if d.hypertension.getD false then (0.25 : ℚ) else 0)
     + (if d.heartDisease.getD false then (0.25 : ℚ) else 0)
     + (if 125 < d.avgGlucoseLevel.getD 100 then (0.15 : ℚ) else 0)
     + (if 30 < d.bmi.getD 25 then (0.1 : ℚ) else 0)
     + (if smoking_flag d then (0.15 : ℚ) else 0)) 1

/-- `StrokePredictor._identify_risk_factors`. -/
def stroke_identify_risk_factors (d : StrokeData) : List RiskFactor :=
  (if d.hypertension.getD false then
    [⟨"Hypertension", 0.25,
      "Hypertension significantly increases stroke risk"⟩] else [])
  ++ (if d.heartDisease.getD false then
    [⟨"Heart Disease", 0.25,
      "Existing heart disease increases stroke risk"⟩] else [])
  ++ (if smoking_flag d then
    [⟨"Smoking", 0.15,
      "Smoking damages blood vessels and increases risk"⟩] else [])

/-- `StrokePredictor.predict` (confidence fixed at 0.80). -/
def stroke_predict (d : StrokeData) : ConditionAssessment :=
  ⟨stroke_calculate_risk_score d, 0.80, stroke_identify_risk_factors d⟩

/-- A vital-sign reading (`VitalSignInput` in `app/schemas/prediction.py`);
the timestamp instant is modelled as a rational time coordinate. -/
structure VitalReading where
  type : String
  value : ℚ
  unit : String := ""
  timestamp : ℚ := 0
deriving DecidableEq, Repr

/-- `GeneralRiskPredictor._get_latest_vital`: scans the list in order and
returns the value of the FIRST reading whose type matches, else the default. -/
def get_latest_vital (vitals : List VitalReading) (vital_type : String) (default : ℚ) : ℚ :=
  match vitals with
  | [] => default
  | v :: vs => if v.type = vital_type then v.value else get_latest_vital vs vital_type default

/-- What the spec asks of the feature derivation (refinement reference, not a
translation of source): the value of the most recent reading of the given
type — for an ascending time-sorted series, the LAST matching element. -/
def latest_vital_per_spec (vitals : List VitalReading) (vital_type : String) (default : ℚ) : ℚ :=
  match (vitals.filter (fun v => v.type = vital_type)).getLast? with
  | some v => v.value
  | none => default

/-- Patient profile dict as read by `GeneralRiskPredictor._assess_*_risk`. -/
structure PatientData where
  age : Option ℚ := none
  gender : Option String := none
  bmi : Option ℚ := none
  chronicConditions : List String := []
  smokingStatus : Option String := none
deriving DecidableEq, Repr

/-- `GeneralRiskPredictor._assess_heart_risk`: the dict it builds has keys
age, gender, restingBP, cholesterol=200, fastingBloodSugar=False,
maxHeartRate — and no exerciseInducedAngina key (hence `none`). -/
def assess_heart_risk (p : PatientData) (vitals : List VitalReading) : ConditionAssessment :=
  heart_predict
    { age := some (p.age.getD 50)
      restingBP := some (get_latest_vital vitals "bloodPressure" 120)
      cholesterol := some 200
      fastingBloodSugar := some false
      exerciseInducedAngina := none }

/-- `GeneralRiskPredictor._assess_diabetes_risk`. -/
def assess_diabetes_risk (p : PatientData) (vitals : List VitalReading) : ConditionAssessment :=
  diabetes_predict
    { age := some (p.age.getD 40)
      bmi := some (p.bmi.getD 25)
      glucoseLevel := some (get_latest_vital vitals "bloodGlucose" 100)
      bloodPressure := some (get_latest_vital vitals "bloodPressure" 80) }

/-- `GeneralRiskPredictor._assess_stroke_risk`. -/
def assess_stroke_risk (p : PatientData) (vitals : List VitalReading) : ConditionAssessment :=
  stroke_predict
    { age := some (p.age.getD 50)
      hypertension := some (p.chronicConditions.contains "hypertension")
      heartDisease := some (p.chronicConditions.contains "heart disease")
      avgGlucoseLevel := some (get_latest_vital vitals "bloodGlucose" 100)
      bmi := some (p.bmi.getD 25)
      smokingStatus := some (p.smokingStatus.getD "never smoked") }

/-- `GeneralRiskPredictor._identify_primary_concerns`. -/
def identify_primary_concerns (heart_risk diabetes_risk stroke_risk : ℚ) : List String :=
  let concerns :=
    (if 0.6 < heart_risk then ["Elevated cardiovascular disease risk"] else [])
    ++ (if 0.6 < diabetes_risk then ["High diabetes risk"] else [])
    ++ (if 0.6 < stroke_risk then ["Increased stroke risk"] else [])
  if concerns = [] then ["Overall health status is good"] else concerns

/-- `GeneralRiskPredictor._generate_recommendations` (the stroke argument is
accepted and unused, exactly as in the source). -/
def generate_recommendations (risk_level : RiskLevel) (heart diabetes stroke : ℚ) :
    List Recommendation :=
  (if risk_level = RiskLevel.high ∨ risk_level = RiskLevel.critical then
    [⟨"Immediate Action", "high", "Schedule consultation with healthcare provider",
      ["Book appointment with primary care physician",
       "Bring recent test results and medication list",
       "Monitor symptoms closely"]⟩] else [])
  ++ (if 0.5 < heart then
    [⟨"Cardiovascular Health", "medium", "Improve heart health through lifestyle changes",
      ["Engage in 30 minutes of moderate exercise daily",
       "Reduce sodium intake to less than 2,300mg per day",
       "Monitor blood pressure regularly",
       "Consider stress reduction techniques"]⟩] else [])
  ++ (if 0.5 < diabetes then
    [⟨"Metabolic Health", "medium", "Reduce diabetes risk",
      ["Maintain healthy weight (BMI < 25)",
       "Limit refined carbohydrates and sugars",
       "Monitor blood glucose levels",
       "Increase fiber intake"]⟩] else [])

/-- Result record of `GeneralRiskPredictor.predict_comprehensive_risk`
(spec's ComprehensiveAssessment; caller-added id/timestamp out of scope). -/
structure ComprehensiveRisk where
  riskLevel : RiskLevel
  riskScore : ℚ
  confidence : ℚ
  riskFactors : List RiskFactor
  primaryConcerns : List String
  recommendations : List Recommendation
deriving DecidableEq, Repr

/-- `GeneralRiskPredictor.predict_comprehensive_risk`. -/
def predict_comprehensive_risk (p : PatientData) (vitals : List VitalReading) :
    ComprehensiveRisk :=
  let heart := assess_heart_risk p vitals
  let diabetes := assess_diabetes_risk p vitals
  let stroke := assess_stroke_risk p vitals
  let overall_risk := heart.riskScore * 0.4 + diabetes.riskScore * 0.3 + stroke.riskScore * 0.3
  let overall_confidence := (heart.confidence + diabetes.confidence + stroke.confidence) / 3
  let all_factors := heart.riskFactors ++ diabetes.riskFactors ++ stroke.riskFactors
  let risk_level := determine_risk_level overall_risk
  { riskLevel := risk_level
    riskScore := overall_risk
    confidence := overall_confidence
    riskFactors := all_factors
    primaryConcerns := identify_primary_concerns heart.riskScore diabetes.riskScore stroke.riskScore
    recommendations := generate_recommendations risk_level heart.riskScore diabetes.riskScore stroke.riskScore }

/-- The concrete patient input exhibiting C10. -/
def c10_patient : PatientData :=
  { age := some 70
    chronicConditions := ["hypertension", "heart disease"]
    smokingStatus := some "smokes" }

/-! ### Vitals analyzer (`app/ml/vitals_analyzer.py`) -/

/-- Ordered insertion used to model sorting a numeric series ascending. -/
def insertAsc (x : ℚ) : List ℚ → List ℚ
  | [] => [x]
  | y :: ys => if x ≤ y then x :: y :: ys else y :: insertAsc x ys

/-- Ascending sort of a numeric series (numpy sorts before percentiles). -/
def sortAsc : List ℚ → List ℚ
  | [] => []
  | x :: xs => insertAsc x (sortAsc xs)

/-- Ordered insertion by timestamp, modelling `df.sort_values("timestamp")`. -/
def insertByTime (x : VitalReading) : List VitalReading → List VitalReading
  | [] => [x]
  | y :: ys => if x.timestamp < y.timestamp then x :: y :: ys else y :: insertByTime x ys

/-- Sort a series of readings by timestamp. -/
def sortByTime : List VitalReading → List VitalReading
  | [] => []
  | x :: xs => insertByTime x (sortByTime xs)

/-- Arithmetic mean (`np.mean`); 0 on the empty list (never consulted there). -/
def meanQ (l : List ℚ) : ℚ := l.sum / l.length

/-- Population variance (`np.var`, equal to `np.std` squared). -/
def varQ (l : List ℚ) : ℚ := ((l.map fun v => (v - meanQ l) ^ 2).sum) / l.length

/-- `np.min` of a non-empty series. -/
def minQ : List ℚ → ℚ
  | [] => 0
  | x :: xs => xs.foldl min x

/-- `np.max` of a non-empty series. -/
def maxQ : List ℚ → ℚ
  | [] => 0
  | x :: xs => xs.foldl max x

/-- `np.percentile` with its default linear interpolation between order
statistics: position = p/100·(n−1), interpolated between the two adjacent
sorted values. -/
def percentileQ (l : List ℚ) (p : ℚ) : ℚ :=
  let s := sortAsc l
  let n := s.length
  if n = 0 then 0
  else
    let pos : ℚ := p * ((n : ℚ) - 1) / 100
    let i : ℕ := (Rat.floor pos).toNat
    let a := s.getD i 0
    match s.get? (i + 1) with
    | some b => a + (pos - (i : ℚ)) * (b - a)
    | none => a

/-- The statistics dict built by `VitalsAnalyzer._calculate_statistics`.
`std` and `coefficient_of_variation` in the source are `np.std` (the square
root of `variance`) and `std/mean·100`: both are irrational square roots of
the rational data, no claim reads them, and the embedding carries `variance`
(= std²) in their stead. -/
structure VitalStats where
  mean : ℚ
  median : ℚ
  variance : ℚ
  min : ℚ
  max : ℚ
  q25 : ℚ
  q75 : ℚ
  count : ℕ
deriving DecidableEq, Repr

/-- `VitalsAnalyzer._calculate_statistics` (np.median is the 50th percentile
with linear interpolation). -/
def calculate_statistics (l : List ℚ) : VitalStats :=
  { mean := meanQ l
    median := percentileQ l 50
    variance := varQ l
    min := minQ l
    max := maxQ l
    q25 := percentileQ l 25
    q75 := percentileQ l 75
    count := l.length }

/-- One entry of the anomaly list built by `VitalsAnalyzer._detect_anomalies`.
The source's reason strings are carried as the two booleans recording which
rule fired; `deviationSq` carries the square of the recorded z-score
(`|v−mean|/std`, itself an irrational square root of the rational data). -/
structure Anomaly where
  index : ℕ
  value : ℚ
  severity : String
  zRule : Bool
  iqrRule : Bool
  deviationSq : ℚ
deriving DecidableEq, Repr

/-- `VitalsAnalyzer._detect_anomalies` over the (time-sorted) value series.
The z-score test `z > 3` is carried as `z² > 9` and the severity test
`z > 4` as `z² > 16`, equivalent for nonnegative z.  When the population
variance is 0 the source divides by `std == 0.0`: every deviation is then
exactly 0 (exact arithmetic), numpy yields NaN z-scores, and `NaN > 3` is
False, so no point is z-flagged — modelled by defining the squared z-score
as 0 in that case, for which `0 > 9` is likewise false. -/
def detect_anomalies (values : List ℚ) : List Anomaly :=
  let mean := meanQ values
  let var := varQ values
  let q1 := percentileQ values 25
  let q3 := percentileQ values 75
  let iqr := q3 - q1
  let lower_bound := q1 - 1.5 * iqr
  let upper_bound := q3 + 1.5 * iqr
  values.enum.filterMap fun p =>
    let zSq : ℚ := if var = 0 then 0 else (p.2 - mean) ^ 2 / var
    let zFlag : Bool := decide (9 < zSq)
    let iqrFlag : Bool := decide (p.2 < lower_bound ∨ upper_bound < p.2)
    if zFlag || iqrFlag then
      some ⟨p.1, p.2, if 16 < zSq then "high" else "medium", zFlag, iqrFlag, zSq⟩
    else none

/-- One entry of `AnomalyDetector.detect_sudden_changes`' result; `index`
stands for the flagged reading's position (the source records its
timestamp, in one-to-one correspondence with the position). -/
structure SuddenChange where
  index : ℕ
  previous_value : ℚ
  current_value : ℚ
  change_percent : ℚ
  severity : String
deriving DecidableEq, Repr

/-- `AnomalyDetector.detect_sudden_changes`: for each i in range(1, n)
(embedded as `List.range' 1 (n−1)`), percent change
= |v[i] − v[i−1]| / v[i−1], flagged when above the threshold, severity
"high" when above 0.3 else "medium". -/
def detect_sudden_changes (values : List ℚ) (threshold : ℚ := 0.2) : List SuddenChange :=
  (List.range' 1 (values.length - 1)).filterMap fun i =>
    if threshold < |values.getD i 0 - values.getD (i - 1) 0| / values.getD (i - 1) 0 then
      some ⟨i, values.getD (i - 1) 0, values.getD i 0,
            |values.getD i 0 - values.getD (i - 1) 0| / values.getD (i - 1) 0 * 100,
            if 0.3 < |values.getD i 0 - values.getD (i - 1) 0| / values.getD (i - 1) 0
            then "high" else "medium"⟩
    else none

/-! ### Linear trend (`VitalsAnalyzer._determine_trend`), modelling
`scipy.stats.linregress` on the abscissa x = 0, 1, …, n−1. -/

/-- Σ of the indices below n (the regression abscissa sum Σx). -/
def idSum : ℕ → ℚ
  | 0 => 0
  | n + 1 => idSum n + n

/-- Σ of the squared indices below n (the abscissa sum Σx²). -/
def idSqSum : ℕ → ℚ
  | 0 => 0
  | n + 1 => idSqSum n + (n : ℚ) * n

/-- Index-weighted sum Σ (k+j)·v_j over a value list (the Σxy piece). -/
def wsum (k : ℕ) : List ℚ → ℚ
  | [] => 0
  | v :: vs => (k : ℚ) * v + wsum (k + 1) vs

/-- n² times scipy's ssxm: n·Σx² − (Σx)². -/
def regX (n : ℕ) : ℚ := (n : ℚ) * idSqSum n - idSum n ^ 2

/-- n² times scipy's ssxym: n·Σxy − Σx·Σy. -/
def regA (l : List ℚ) : ℚ := (l.length : ℚ) * wsum 0 l - idSum l.length * l.sum

/-- n² times scipy's ssym: n·Σy² − (Σy)². -/
def regY (l : List ℚ) : ℚ := (l.length : ℚ) * (l.map fun v => v ^ 2).sum - l.sum ^ 2

/-- The OLS slope ssxym/ssxm computed by linregress. -/
def slopeOf (l : List ℚ) : ℚ := regA l / regX l.length

/-- The square of linregress' correlation r (scipy sets r = 0 when either
variance term vanishes, else r = ssxym/√(ssxm·ssym)). -/
def r2Of (l : List ℚ) : ℚ :=
  if regX l.length = 0 ∨ regY l = 0 then 0 else regA l ^ 2 / (regX l.length * regY l)

/-- scipy's TINY guard inside the t statistic. -/
def TINY : ℚ := 1 / 10 ^ 20

/-- The square of linregress' t statistic
t = r·√(df/((1−r+TINY)(1+r+TINY))), i.e. t² = r²·df/((1+TINY)² − r²). -/
def t2Of (l : List ℚ) : ℚ :=
  r2Of l * ((l.length - 2 : ℕ) : ℚ) / ((1 + TINY) ^ 2 - r2Of l)

/-- `VitalsAnalyzer._determine_trend`, parametric in the significance
decision: `sig l = true` stands for the branch test `p_value > 0.05` on the
p-value linregress returns for l.  The classification logic is the
translation of the source; the p-value itself is computed inside scipy, an
external library, abstracted here as `sig` and characterized by
`IsTTestDecision` below. -/
def determine_trend_with (sig : List ℚ → Bool) (values : List ℚ) : String :=
  if values.length < 3 then "insufficient_data"
  else if sig values then "stable"
  else if 0 < slopeOf values then "increasing"
  else if slopeOf values < 0 then "decreasing"
  else "stable"

/-- Modelled from the spec: what is certain about scipy's `p_value > 0.05`
decision, without fixing its irrational thresholds.  linregress' two-sided
p-value 2·sf(|t|, df) is strictly decreasing in |t|, so on any series it
holds that `p > 0.05 ⟺ t² < q`, where q is the squared two-sided 5%
Student-t critical value at df = n − 2.  q is irrational and df-dependent,
but for every df ≥ 1 it lies between the df → ∞ limit (≈1.95996²) > 3.8 and
the df = 1 value (≈12.7062²) < 162.  `sig` is a t-test decision when, on
every series long enough to reach the branch, it is such a threshold test
for some admissible q. -/
def IsTTestDecision (sig : List ℚ → Bool) : Prop :=
  ∀ l : List ℚ, 3 ≤ l.length →
    ∃ q : ℚ, 3.8 ≤ q ∧ q ≤ 162 ∧ (sig l = true ↔ t2Of l < q)

/-- One concrete t-test decision (a fixed admissible threshold), used only
to witness that the hypotheses of the trend theorem are satisfiable and to
give `analyze_trend` a concrete pipeline; it is not claimed to coincide
with scipy's irrational per-df thresholds, and no settled claim reads the
significance branch through it. -/
def tTestDecisionModel (l : List ℚ) : Bool := decide (t2Of l < 4)

/-- A noise-free strictly monotone input family: the arithmetic ramp
a, a+b, a+2b, …, a+(n−1)b (an input construction, not source code). -/
def rampSeries (a b : ℚ) (n : ℕ) : List ℚ :=
  (List.range n).map fun (i : ℕ) => a + b * (i : ℚ)

/-- `VitalsAnalyzer._determine_trend` instantiated with the model decision,
so that `analyze_trend` below is a concrete executable pipeline.  Every
statement settled about the significance branch is made parametrically over
all of `IsTTestDecision` via `determine_trend_with`, never through this
instantiation. -/
def determine_trend (values : List ℚ) : String :=
  determine_trend_with tTestDecisionModel values

/-- One projected point of `VitalsAnalyzer._generate_forecast`; the source
attaches confidence_lower/upper = value ∓ np.std(values), an irrational
± one-standard-deviation band read by no claim, carried here by its squared
half-width `bandVariance`. -/
structure ForecastPoint where
  period : ℕ
  value : ℚ
  bandVariance : ℚ
deriving DecidableEq, Repr

/-- `VitalsAnalyzer._generate_forecast`: moving average over the last
min(7, n) values, projected with the OLS slope. -/
def generate_forecast (values : List ℚ) (periods : ℕ := 3) : List ForecastPoint :=
  if values.length < 3 then []
  else
    let window := min 7 values.length
    let ma := meanQ (values.drop (values.length - window))
    let slope := slopeOf values
    (List.range periods).map fun i => ⟨i + 1, ma + slope * ((i : ℚ) + 1), varQ values⟩

/-- A row of the static normal-range table in `_assess_vital_risk`. -/
structure NormalRange where
  min : ℚ
  max : ℚ
  unit : String
deriving DecidableEq, Repr

/-- The `normal_ranges` table of `VitalsAnalyzer._assess_vital_risk`. -/
def normal_ranges (vital_type : String) : Option NormalRange :=
  if vital_type = "heartRate" then some ⟨60, 100, "bpm"⟩
  else if vital_type = "bloodPressureSystolic" then some ⟨90, 120, "mmHg"⟩
  else if vital_type = "bloodPressureDiastolic" then some ⟨60, 80, "mmHg"⟩
  else if vital_type = "oxygenSaturation" then some ⟨95, 100, "%"⟩
  else if vital_type = "temperature" then some ⟨36.5, 37.5, "°C"⟩
  else if vital_type = "respiratoryRate" then some ⟨12, 20, "brpm"⟩
  else if vital_type = "bloodGlucose" then some ⟨70, 140, "mg/dL"⟩
  else none

/-- Result dict of `_assess_vital_risk`; the unknown-type result carries
only riskLevel and message (remaining fields `none`). -/
structure VitalRiskResult where
  riskLevel : String
  message : String
  normalRange : Option NormalRange
  averageValue : Option ℚ
  deviation : Option ℚ
deriving DecidableEq, Repr

/-- `VitalsAnalyzer._assess_vital_risk`: deviation-based level from the mean
against the normal range, then anomaly-count escalation, then a trend
annotation on the message. -/
def assess_vital_risk (vital_type : String) (stats : VitalStats)
    (anomalies : List Anomaly) (trend : String) : VitalRiskResult :=
  match normal_ranges vital_type with
  | none => ⟨"unknown", "Unknown vital type", none, none, none⟩
  | some r =>
    let mean_value := stats.mean
    let base : String × String :=
      if mean_value < r.min then
        let dev := (r.min - mean_value) / r.min * 100
        if 20 < dev then ("high", "Average " ++ vital_type ++ " significantly below normal")
        else if 10 < dev then ("medium", "Average " ++ vital_type ++ " below normal")
        else ("low", "Vital signs within normal range")
      else if r.max < mean_value then
        let dev := (mean_value - r.max) / r.max * 100
        if 20 < dev then ("high", "Average " ++ vital_type ++ " significantly above normal")
        else if 10 < dev then ("medium", "Average " ++ vital_type ++ " above normal")
        else ("low", "Vital signs within normal range")
      else ("low", "Vital signs within normal range")
    let esc : String × String :=
      if 5 < anomalies.length then
        ("high", base.2 ++ "; " ++ toString anomalies.length ++ " anomalies detected")
      else if 2 < anomalies.length then
        ((if base.1 = "low" then "medium" else base.1),
          base.2 ++ "; " ++ toString anomalies.length ++ " anomalies detected")
      else base
    let msg :=
      if trend = "increasing" ∧ r.max < mean_value then esc.2 ++ "; increasing trend"
      else if trend = "decreasing" ∧ mean_value < r.min then esc.2 ++ "; decreasing trend"
      else esc.2
    ⟨esc.1, msg, some r, some mean_value, some |mean_value - (r.min + r.max) / 2|⟩

/-- Result of `VitalsAnalyzer.analyze_trend`; `statistics = none` models the
empty statistics dict of the no-data result. -/
structure TrendAnalysis where
  statistics : Option VitalStats
  trend : String
  anomalies : List Anomaly
  forecast : List ForecastPoint
  riskAssessment : VitalRiskResult
deriving DecidableEq, Repr

/-- `VitalsAnalyzer._empty_analysis`. -/
def empty_analysis : TrendAnalysis :=
  ⟨none, "no_data", [], [], ⟨"unknown", "No data available", none, none, none⟩⟩

/-- `VitalsAnalyzer.analyze_trend` (the `days` parameter is accepted and
unused inside the function, as in the source). -/
def analyze_trend (vitals : List VitalReading) (vital_type : String)
    (days : ℕ := 7) : TrendAnalysis :=
  match vitals with
  | [] => empty_analysis
  | v :: vs =>
    let values := (sortByTime (v :: vs)).map fun r => r.value
    let statistics := calculate_statistics values
    let trend := determine_trend values
    let anomalies := detect_anomalies values
    let forecast := generate_forecast values 3
    ⟨some statistics, trend, anomalies, forecast,
      assess_vital_risk vital_type statistics anomalies trend⟩

end MediConnect

namespace MediConnect

/-- C8: the shared risk-level derivation maps s < 0.3 to LOW, 0.3 ≤ s < 0.6 to
MEDIUM, 0.6 ≤ s < 0.8 to HIGH and s ≥ 0.8 to CRITICAL, each boundary strictly
"below", so 0.3 is MEDIUM, 0.6 is HIGH and 0.8 is CRITICAL. -/
theorem determine_risk_level_thresholds (s : ℚ) :
    (s < 0.3 → determine_risk_level s = RiskLevel.low)
    ∧ (0.3 ≤ s → s < 0.6 → determine_risk_level s = RiskLevel.medium)
    ∧ (0.6 ≤ s → s < 0.8 → determine_risk_level s = RiskLevel.high)
    ∧ (0.8 ≤ s → determine_risk_level s = RiskLevel.critical)
    ∧ determine_risk_level 0.3 = RiskLevel.medium
    ∧ determine_risk_level 0.6 = RiskLevel.high
    ∧ determine_risk_level 0.8 = RiskLevel.critical := by
  unfold determine_risk_level risk_low_threshold risk_medium_threshold risk_high_threshold
  refine ⟨?_, ?_, ?_, ?_, by norm_num, by norm_num, by norm_num⟩
  · intro h; rw [if_pos h]
  · intro h1 h2
    rw [if_neg (by linarith), if_pos h2]
  · intro h1 h2
    rw [if_neg (by linarith), if_neg (by linarith), if_pos h2]
  · intro h
    rw [if_neg (by linarith), if_neg (by linarith), if_neg (by linarith)]

/-- Witness for C8 at s = 0.45 (MEDIUM band). -/
theorem determine_risk_level_thresholds_witness :
    determine_risk_level 0.45 = RiskLevel.medium :=
  (determine_risk_level_thresholds 0.45).2.1 (by norm_num) (by norm_num)

/-- C1 (code bug): on the ascending time-sorted series
[heartRate 80 at t=1, heartRate 120 at t=2] the aggregator's feature
derivation returns 80 — the value of the OLDEST matching reading — while the
most recent reading of that type (which the function's own docstring and the
spec promise) has value 120; the two derivations disagree on this input. -/
theorem get_latest_vital_returns_oldest :
    List.Chain' (fun a b => a.timestamp ≤ b.timestamp)
      [VitalReading.mk "heartRate" 80 "bpm" 1, VitalReading.mk "heartRate" 120 "bpm" 2]
    ∧ get_latest_vital
        [VitalReading.mk "heartRate" 80 "bpm" 1, VitalReading.mk "heartRate" 120 "bpm" 2]
        "heartRate" 150 = 80
    ∧ latest_vital_per_spec
        [VitalReading.mk "heartRate" 80 "bpm" 1, VitalReading.mk "heartRate" 120 "bpm" 2]
        "heartRate" 150 = 120
    ∧ (80 : ℚ) ≠ 120 := by
  refine ⟨?_, ?_, ?_, by norm_num⟩
  · norm_num [List.chain'_cons]
  · norm_num [get_latest_vital]
  · norm_num [latest_vital_per_spec, List.filter, List.getLast?]

/-- C2: the comprehensive assessment's overall score is
0.4·cardio + 0.3·metabolic + 0.3·cerebro, its confidence is
(0.85 + 0.82 + 0.80)/3, and its risk factors are the three per-condition
lists concatenated in order cardio, metabolic, cerebro with no deduplication;
for condition scores 0.8/0.3/0.3 the combination is 0.50, giving MEDIUM. -/
theorem predict_comprehensive_risk_combination (p : PatientData) (vitals : List VitalReading) :
    (predict_comprehensive_risk p vitals).riskScore =
        (assess_heart_risk p vitals).riskScore * 0.4
      + (assess_diabetes_risk p vitals).riskScore * 0.3
      + (assess_stroke_risk p vitals).riskScore * 0.3
    ∧ (predict_comprehensive_risk p vitals).confidence = (0.85 + 0.82 + 0.80) / 3
    ∧ (predict_comprehensive_risk p vitals).riskFactors =
        (assess_heart_risk p vitals).riskFactors
          ++ (assess_diabetes_risk p vitals).riskFactors
          ++ (assess_stroke_risk p vitals).riskFactors
    ∧ ((0.8 : ℚ) * 0.4 + 0.3 * 0.3 + 0.3 * 0.3) = 0.50
    ∧ determine_risk_level ((0.8 : ℚ) * 0.4 + 0.3 * 0.3 + 0.3 * 0.3) = RiskLevel.medium := by
  refine ⟨rfl, rfl, rfl, by norm_num, ?_⟩
  have h5 : ((0.8 : ℚ) * 0.4 + 0.3 * 0.3 + 0.3 * 0.3) = 0.5 := by norm_num
  rw [h5]
  unfold determine_risk_level risk_low_threshold risk_medium_threshold risk_high_threshold
  norm_num

/-- C10: the patient (age 70, hypertension and heart disease, smoker, empty
vitals) gets "Increased stroke risk" among primary concerns yet an empty
recommendations list; and recommendations are only ever produced for overall
level HIGH/CRITICAL, cardio score > 0.5 or metabolic score > 0.5 — never for
the stroke score alone. -/
theorem stroke_concern_without_recommendation :
    ("Increased stroke risk" ∈ (predict_comprehensive_risk c10_patient []).primaryConcerns
      ∧ (predict_comprehensive_risk c10_patient []).recommendations = [])
    ∧ ∀ (rl : RiskLevel) (h d s : ℚ), rl ≠ RiskLevel.high → rl ≠ RiskLevel.critical →
        h ≤ 0.5 → d ≤ 0.5 → generate_recommendations rl h d s = [] := by
  constructor
  · have hh : (assess_heart_risk c10_patient []).riskScore = 0.3 := by
      norm_num [assess_heart_risk, heart_predict, heart_calculate_risk_score,
        get_latest_vital, c10_patient, min_def]
    have hd : (assess_diabetes_risk c10_patient []).riskScore = 0.15 := by
      norm_num [assess_diabetes_risk, diabetes_predict, diabetes_calculate_risk_score,
        get_latest_vital, c10_patient, min_def]
    have hs : (assess_stroke_risk c10_patient []).riskScore = 0.95 := by
      norm_num [assess_stroke_risk, stroke_predict, stroke_calculate_risk_score,
        get_latest_vital, smoking_flag, c10_patient, min_def, List.contains]
    constructor
    · show "Increased stroke risk" ∈
        identify_primary_concerns (assess_heart_risk c10_patient []).riskScore
          (assess_diabetes_risk c10_patient []).riskScore
          (assess_stroke_risk c10_patient []).riskScore
      rw [hh, hd, hs]
      norm_num [identify_primary_concerns]
    · show generate_recommendations
        (determine_risk_level
          ((assess_heart_risk c10_patient []).riskScore * 0.4
            + (assess_diabetes_risk c10_patient []).riskScore * 0.3
            + (assess_stroke_risk c10_patient []).riskScore * 0.3))
        (assess_heart_risk c10_patient []).riskScore
        (assess_diabetes_risk c10_patient []).riskScore
        (assess_stroke_risk c10_patient []).riskScore = []
      rw [hh, hd, hs]
      have hlvl : determine_risk_level ((0.3 : ℚ) * 0.4 + 0.15 * 0.3 + 0.95 * 0.3)
          = RiskLevel.medium := by
        unfold determine_risk_level risk_low_threshold risk_medium_threshold risk_high_threshold
        norm_num
      rw [hlvl]
      norm_num [generate_recommendations]
      exact ⟨by decide, by decide⟩
  · intro rl h d s h1 h2 h3 h4
    have hor : ¬(rl = RiskLevel.high ∨ rl = RiskLevel.critical) := by
      intro hc
      cases hc with
      | inl e => exact h1 e
      | inr e => exact h2 e
    unfold generate_recommendations
    rw [if_neg hor, if_neg (not_lt.mpr h3), if_neg (not_lt.mpr h4)]
    rfl

/-- Witness for C10's universal part at (MEDIUM, 0.3, 0.15, 0.95) — the very
scores the C10 patient produces. -/
theorem stroke_concern_without_recommendation_witness :
    generate_recommendations RiskLevel.medium 0.3 0.15 0.95 = [] :=
  stroke_concern_without_recommendation.2 RiskLevel.medium 0.3 0.15 0.95
    (by decide) (by decide) (by norm_num) (by norm_num)

/-- Shared bound: a `min x c` impact with nonnegative arguments and cap at
most 1 lies in [0,1]. -/
theorem impact_min_bounds {x c : ℚ} (hx : 0 ≤ x) (hc : 0 ≤ c) (hc1 : c ≤ 1) :
    0 ≤ min x c ∧ min x c ≤ 1 :=
  ⟨le_min hx hc, le_trans (min_le_right _ _) hc1⟩

/-- C3: each of the three condition scorers, on every feature map (missing or
extreme values included), returns a truncated score in [0,1], a confidence in
[0,1], and risk factors whose impacts all lie in [0,1]. -/
theorem scorer_outputs_bounded :
    (∀ d : HeartData,
        (0 ≤ (heart_predict d).riskScore ∧ (heart_predict d).riskScore ≤ 1)
        ∧ (0 ≤ (heart_predict d).confidence ∧ (heart_predict d).confidence ≤ 1)
        ∧ ((heart_predict d).riskFactors.all
            fun f => decide (0 ≤ f.impact ∧ f.impact ≤ 1)) = true)
    ∧ (∀ d : DiabetesData,
        (0 ≤ (diabetes_predict d).riskScore ∧ (diabetes_predict d).riskScore ≤ 1)
        ∧ (0 ≤ (diabetes_predict d).confidence ∧ (diabetes_predict d).confidence ≤ 1)
        ∧ ((diabetes_predict d).riskFactors.all
            fun f => decide (0 ≤ f.impact ∧ f.impact ≤ 1)) = true)
    ∧ (∀ d : StrokeData,
        (0 ≤ (stroke_predict d).riskScore ∧ (stroke_predict d).riskScore ≤ 1)
        ∧ (0 ≤ (stroke_predict d).confidence ∧ (stroke_predict d).confidence ≤ 1)
        ∧ ((stroke_predict d).riskFactors.all
            fun f => decide (0 ≤ f.impact ∧ f.impact ≤ 1)) = true) := by
  refine ⟨fun d => ⟨?_, ?_, ?_⟩, fun d => ⟨?_, ?_, ?_⟩, fun d => ⟨?_, ?_, ?_⟩⟩
  · show 0 ≤ heart_calculate_risk_score d ∧ heart_calculate_risk_score d ≤ 1
    unfold heart_calculate_risk_score
    refine ⟨le_min ?_ (by norm_num), min_le_right _ _⟩
    have a1 : (0 : ℚ) ≤ (if 65 < d.age.getD 50 then (0.3 : ℚ)
        else if 55 < d.age.getD 50 then 0.2
        else if 45 < d.age.getD 50 then 0.1 else 0) := by split_ifs <;> norm_num
    have a2 : (0 : ℚ) ≤ (if 140 < d.restingBP.getD 120 then (0.25 : ℚ)
        else if 130 < d.restingBP.getD 120 then 0.15 else 0) := by split_ifs <;> norm_num
    have a3 : (0 : ℚ) ≤ (if 240 < d.cholesterol.getD 200 then (0.2 : ℚ)
        else if 200 < d.cholesterol.getD 200 then 0.1 else 0) := by split_ifs <;> norm_num
    have a4 : (0 : ℚ) ≤ (if d.fastingBloodSugar.getD false then (0.15 : ℚ) else 0) := by
      split_ifs <;> norm_num
    have a5 : (0 : ℚ) ≤ (if d.exerciseInducedAngina.getD false then (0.2 : ℚ) else 0) := by
      split_ifs <;> norm_num
    linarith
  · constructor <;> norm_num [heart_predict]
  · rw [List.all_eq_true]
    intro f hf
    rw [decide_eq_true_eq]
    unfold heart_predict heart_identify_risk_factors at hf
    simp only [List.mem_append] at hf
    rcases hf with (((hf | hf) | hf) | hf)
    · split_ifs at hf with hc
      · rw [List.mem_singleton] at hf
        subst hf
        exact impact_min_bounds (div_nonneg (by linarith) (by norm_num)) (by norm_num) (by norm_num)
      · exact absurd hf (List.not_mem_nil f)
    · split_ifs at hf with hc
      · rw [List.mem_singleton] at hf
        subst hf
        exact impact_min_bounds (div_nonneg (by linarith) (by norm_num)) (by norm_num) (by norm_num)
      · exact absurd hf (List.not_mem_nil f)
    · split_ifs at hf with hc
      · rw [List.mem_singleton] at hf
        subst hf
        exact impact_min_bounds (div_nonneg (by linarith) (by norm_num)) (by norm_num) (by norm_num)
      · exact absurd hf (List.not_mem_nil f)
    · split_ifs at hf with hc
      · rw [List.mem_singleton] at hf
        subst hf
        constructor <;> norm_num
      · exact absurd hf (List.not_mem_nil f)
  · show 0 ≤ diabetes_calculate_risk_score d ∧ diabetes_calculate_risk_score d ≤ 1
    unfold diabetes_calculate_risk_score
    refine ⟨le_min ?_ (by norm_num), min_le_right _ _⟩
    have a1 : (0 : ℚ) ≤ (if 30 < d.bmi.getD 25 then (0.3 : ℚ)
        else if 25 < d.bmi.getD 25 then 0.15 else 0) := by split_ifs <;> norm_num
    have a2 : (0 : ℚ) ≤ (if 126 < d.glucoseLevel.getD 100 then (0.4 : ℚ)
        else if 100 < d.glucoseLevel.getD 100 then 0.2 else 0) := by split_ifs <;> norm_num
    have a3 : (0 : ℚ) ≤ (if 90 < d.bloodPressure.getD 80 then (0.15 : ℚ) else 0) := by
      split_ifs <;> norm_num
    have a4 : (0 : ℚ) ≤ (if 45 < d.age.getD 40 then (0.15 : ℚ) else 0) := by
      split_ifs <;> norm_num
    linarith
  · constructor <;> norm_num [diabetes_predict]
  · rw [List.all_eq_true]
    intro f hf
    rw [decide_eq_true_eq]
    unfold diabetes_predict diabetes_identify_risk_factors at hf
    simp only [List.mem_append] at hf
    rcases hf with (hf | hf)
    · split_ifs at hf with hc
      · rw [List.mem_singleton] at hf
        subst hf
        exact impact_min_bounds (div_nonneg (by linarith) (by norm_num)) (by norm_num) (by norm_num)
      · exact absurd hf (List.not_mem_nil f)
    · split_ifs at hf with hc
      · rw [List.mem_singleton] at hf
        subst hf
        exact impact_min_bounds (div_nonneg (by linarith) (by norm_num)) (by norm_num) (by norm_num)
      · exact absurd hf (List.not_mem_nil f)
  · show 0 ≤ stroke_calculate_risk_score d ∧ stroke_calculate_risk_score d ≤ 1
    unfold stroke_calculate_risk_score
    refine ⟨le_min ?_ (by norm_num), min_le_right _ _⟩
    have a1 : (0 : ℚ) ≤ (if 65 < d.age.getD 50 then (0.3 : ℚ)
        else if 55 < d.age.getD 50 then 0.15 else 0) := by split_ifs <;> norm_num
    have a2 : (0 : ℚ) ≤ (if d.hypertension.getD false then (0.25 : ℚ) else 0) := by
      split_ifs <;> norm_num
    have a3 : (0 : ℚ) ≤ (if d.heartDisease.getD false then (0.25 : ℚ) else 0) := by
      split_ifs <;> norm_num
    have a4 : (0 : ℚ) ≤ (if 125 < d.avgGlucoseLevel.getD 100 then (0.15 : ℚ) else 0) := by
      split_ifs <;> norm_num
    have a5 : (0 : ℚ) ≤ (if 30 < d.bmi.getD 25 then (0.1 : ℚ) else 0) := by
      split_ifs <;> norm_num
    have a6 : (0 : ℚ) ≤ (if smoking_flag d then (0.15 : ℚ) else 0) := by
      split_ifs <;> norm_num
    linarith
  · constructor <;> norm_num [stroke_predict]
  · rw [List.all_eq_true]
    intro f hf
    rw [decide_eq_true_eq]
    unfold stroke_predict stroke_identify_risk_factors at hf
    simp only [List.mem_append] at hf
    rcases hf with ((hf | hf) | hf) <;>
      · split_ifs at hf with hc
        · rw [List.mem_singleton] at hf
          subst hf
          constructor <;> norm_num
        · exact absurd hf (List.not_mem_nil f)

/-- C9: on the empty input series, trend analysis returns the no-error empty
result: empty statistics map, the no-data trend value, and empty anomaly and
forecast lists. -/
theorem analyze_trend_empty (vital_type : String) (days : ℕ) :
    (analyze_trend [] vital_type days).statistics = none
    ∧ (analyze_trend [] vital_type days).trend = "no_data"
    ∧ (analyze_trend [] vital_type days).anomalies = []
    ∧ (analyze_trend [] vital_type days).forecast = [] :=
  ⟨rfl, rfl, rfl, rfl⟩

/-- C7: for a known vital type before anomaly-count escalation (no
anomalies), the risk level is "high" when the mean's percent deviation from
the violated range boundary exceeds 20, "medium" when it exceeds 10, and
"low" otherwise — in-range means included. -/
theorem assess_vital_risk_deviation (t : String) (r : NormalRange)
    (stats : VitalStats) (trend : String) (h : normal_ranges t = some r) :
    (assess_vital_risk t stats [] trend).riskLevel =
      (if stats.mean < r.min then
        (if 20 < (r.min - stats.mean) / r.min * 100 then "high"
         else if 10 < (r.min - stats.mean) / r.min * 100 then "medium" else "low")
       else if r.max < stats.mean then
        (if 20 < (stats.mean - r.max) / r.max * 100 then "high"
         else if 10 < (stats.mean - r.max) / r.max * 100 then "medium" else "low")
       else "low") := by
  simp only [assess_vital_risk, h, List.length_nil]
  norm_num
  split_ifs <;> rfl

/-- Witness for C7: heartRate with mean 130 against range [60, 100] and no
anomalies is rated "high" (30% deviation above the max). -/
theorem assess_vital_risk_deviation_witness :
    (assess_vital_risk "heartRate" (calculate_statistics [130]) [] "stable").riskLevel
      = "high" := by
  rw [assess_vital_risk_deviation "heartRate" ⟨60, 100, "bpm"⟩
    (calculate_statistics [130]) "stable" rfl]
  norm_num [calculate_statistics, meanQ]

/-- C5: when the population variance (std²) of the series is 0, no returned
anomaly is triggered by the z-score rule — the zero-variance division is
treated as non-anomalous rather than propagating a fault. -/
theorem detect_anomalies_zero_variance (values : List ℚ) (h : varQ values = 0) :
    ((detect_anomalies values).all fun a => !a.zRule) = true := by
  rw [List.all_eq_true]
  intro a ha
  simp only [detect_anomalies, h, if_pos, List.mem_filterMap] at ha
  obtain ⟨p, hp, hf⟩ := ha
  have hz : decide (9 < (0 : ℚ)) = false := decide_eq_false (by norm_num)
  rw [hz, Bool.false_or] at hf
  split_ifs at hf with hflag h16
  · rw [← Option.some.inj hf]
    rfl
  · rw [← Option.some.inj hf]
    rfl

/-- Witness for C5 on the constant series [5, 5, 5]. -/
theorem detect_anomalies_zero_variance_witness :
    ((detect_anomalies [5, 5, 5]).all fun a => !a.zRule) = true :=
  detect_anomalies_zero_variance [5, 5, 5] (by norm_num [varQ, meanQ])

/-- C6: with every previous value nonzero, sudden-change detection flags
exactly the indices i ≥ 1 whose relative jump exceeds the threshold,
recording change_percent as the ratio times 100 and severity "high" above
ratio 0.3 else "medium"; on [100, 100, 150] with threshold 0.2 only index 2
is flagged, with change_percent 50 and severity "high". -/
theorem detect_sudden_changes_spec (values : List ℚ) (threshold : ℚ)
    (hnz : ∀ j, j + 1 < values.length → values.getD j 0 ≠ 0) :
    (∀ c : SuddenChange, c ∈ detect_sudden_changes values threshold ↔
      ∃ i, 1 ≤ i ∧ i < values.length ∧
        threshold < |values.getD i 0 - values.getD (i - 1) 0| / values.getD (i - 1) 0 ∧
        c = ⟨i, values.getD (i - 1) 0, values.getD i 0,
             |values.getD i 0 - values.getD (i - 1) 0| / values.getD (i - 1) 0 * 100,
             if 0.3 < |values.getD i 0 - values.getD (i - 1) 0| / values.getD (i - 1) 0
             then "high" else "medium"⟩)
    ∧ detect_sudden_changes [100, 100, 150] 0.2 = [⟨2, 100, 150, 50, "high"⟩] := by
  constructor
  · intro c
    rw [detect_sudden_changes, List.mem_filterMap]
    constructor
    · rintro ⟨i, hi, hf⟩
      rw [List.mem_range'_1] at hi
      by_cases hpct :
        threshold < |values.getD i 0 - values.getD (i - 1) 0| / values.getD (i - 1) 0
      · rw [if_pos hpct] at hf
        exact ⟨i, hi.1, by omega, hpct, (Option.some.inj hf).symm⟩
      · rw [if_neg hpct] at hf
        exact absurd hf (by simp)
    · rintro ⟨i, hi1, hi2, hpct, rfl⟩
      refine ⟨i, ?_, if_pos hpct⟩
      rw [List.mem_range'_1]
      omega
  · rw [detect_sudden_changes]
    norm_num [List.range', List.filterMap_cons, List.getD_cons_zero, List.getD_cons_succ]

/-- Witness for C6 at ([100, 100, 150], threshold 0.2). -/
theorem detect_sudden_changes_spec_witness :
    detect_sudden_changes [100, 100, 150] 0.2 = [⟨2, 100, 150, 50, "high"⟩] :=
  (detect_sudden_changes_spec [100, 100, 150] 0.2
    (by
      intro j hj
      simp only [List.length_cons, List.length_nil] at hj
      have hj2 : j < 2 := by omega
      interval_cases j <;>
        norm_num [List.getD_cons_zero, List.getD_cons_succ])).2

/-- Closed form of the abscissa sum Σx. -/
theorem idSum_eq (n : ℕ) : idSum n = (n : ℚ) * ((n : ℚ) - 1) / 2 := by
  induction n with
  | zero => simp [idSum]
  | succ k ih =>
    rw [idSum, ih]
    push_cast
    ring

/-- Closed form of the abscissa sum Σx². -/
theorem idSqSum_eq (n : ℕ) :
    idSqSum n = (n : ℚ) * ((n : ℚ) - 1) * (2 * (n : ℚ) - 1) / 6 := by
  induction n with
  | zero => simp [idSqSum]
  | succ k ih =>
    rw [idSqSum, ih]
    push_cast
    ring

/-- Closed form of the abscissa scatter n·Σx² − (Σx)². -/
theorem regX_eq (n : ℕ) : regX n = (n : ℚ) ^ 2 * ((n : ℚ) ^ 2 - 1) / 12 := by
  rw [regX, idSum_eq, idSqSum_eq]
  ring

/-- The abscissa scatter is positive once the series has two points. -/
theorem regX_pos {n : ℕ} (h : 2 ≤ n) : 0 < regX n := by
  rw [regX_eq]
  have hn : (2 : ℚ) ≤ (n : ℚ) := by exact_mod_cast h
  have h1 : (0 : ℚ) < (n : ℚ) ^ 2 := by nlinarith
  have h2 : (0 : ℚ) < (n : ℚ) ^ 2 - 1 := by nlinarith
  exact div_pos (mul_pos h1 h2) (by norm_num)

/-- The index-weighted sum splits over append. -/
theorem wsum_append (k : ℕ) (xs ys : List ℚ) :
    wsum k (xs ++ ys) = wsum k xs + wsum (k + xs.length) ys := by
  induction xs generalizing k with
  | nil => simp [wsum]
  | cons x xs ih =>
    have e1 : wsum k ((x :: xs) ++ ys) = k * x + wsum (k + 1) (xs ++ ys) := rfl
    have e2 : wsum k (x :: xs) = k * x + wsum (k + 1) xs := rfl
    rw [e1, e2, ih (k + 1), List.length_cons,
      show k + 1 + xs.length = k + (xs.length + 1) from by omega]
    ring

/-- The ramp grows by its last point. -/
theorem rampSeries_succ (a b : ℚ) (n : ℕ) :
    rampSeries a b (n + 1) = rampSeries a b n ++ [a + b * n] := by
  rw [rampSeries, rampSeries, List.range_succ, List.map_append]
  rfl

/-- The ramp has n points. -/
theorem rampSeries_length (a b : ℚ) (n : ℕ) : (rampSeries a b n).length = n := by
  simp [rampSeries]

/-- Σy over the ramp. -/
theorem rampSeries_sum (a b : ℚ) (n : ℕ) :
    (rampSeries a b n).sum = n * a + b * idSum n := by
  induction n with
  | zero => simp [rampSeries, idSum]
  | succ k ih =>
    rw [rampSeries_succ, List.sum_append, ih, idSum, List.sum_singleton]
    push_cast
    ring

/-- Σxy over the ramp. -/
theorem rampSeries_wsum (a b : ℚ) (n : ℕ) :
    wsum 0 (rampSeries a b n) = a * idSum n + b * idSqSum n := by
  induction n with
  | zero => simp [rampSeries, wsum, idSum, idSqSum]
  | succ k ih =>
    rw [rampSeries_succ, wsum_append, ih, rampSeries_length, idSum, idSqSum]
    simp only [wsum]
    push_cast
    ring

/-- Σy² over the ramp. -/
theorem rampSeries_sqsum (a b : ℚ) (n : ℕ) :
    ((rampSeries a b n).map fun v => v ^ 2).sum
      = n * a ^ 2 + 2 * a * b * idSum n + b ^ 2 * idSqSum n := by
  induction n with
  | zero => simp [rampSeries, idSum, idSqSum]
  | succ k ih =>
    rw [rampSeries_succ, List.map_append, List.sum_append, ih, idSum, idSqSum]
    simp only [List.map_cons, List.map_nil, List.sum_singleton]
    push_cast
    ring

/-- ssxym over the ramp is slope·ssxm. -/
theorem regA_ramp (a b : ℚ) (n : ℕ) : regA (rampSeries a b n) = b * regX n := by
  rw [regA, rampSeries_length, rampSeries_wsum, rampSeries_sum, regX]
  ring

/-- ssym over the ramp is slope²·ssxm. -/
theorem regY_ramp (a b : ℚ) (n : ℕ) : regY (rampSeries a b n) = b ^ 2 * regX n := by
  rw [regY, rampSeries_length, rampSeries_sqsum, rampSeries_sum, regX]
  ring

/-- The fitted slope over the ramp is its step. -/
theorem slopeOf_ramp (a b : ℚ) (n : ℕ) (h : 2 ≤ n) : slopeOf (rampSeries a b n) = b := by
  rw [slopeOf, rampSeries_length, regA_ramp, mul_div_assoc,
    div_self (ne_of_gt (regX_pos h)), mul_one]

/-- The squared correlation over a nondegenerate ramp is exactly 1. -/
theorem r2Of_ramp (a b : ℚ) (n : ℕ) (hb : b ≠ 0) (h : 2 ≤ n) :
    r2Of (rampSeries a b n) = 1 := by
  have hX : regX n ≠ 0 := ne_of_gt (regX_pos h)
  rw [r2Of, rampSeries_length, regA_ramp, regY_ramp, if_neg, show
    (b * regX n) ^ 2 = regX n * (b ^ 2 * regX n) from by ring]
  · exact div_self (mul_ne_zero hX (mul_ne_zero (pow_ne_zero 2 hb) hX))
  · push_neg
    exact ⟨hX, mul_ne_zero (pow_ne_zero 2 hb) hX⟩

/-- On a nondegenerate ramp of at least 5 points the slope is
overwhelmingly significant: t² = df/(2·TINY + TINY²) ≥ 10²⁰ exceeds every
admissible squared critical value (all of which are at most 162). -/
theorem t2Of_ramp_big (a b : ℚ) (n : ℕ) (hb : b ≠ 0) (h : 5 ≤ n) :
    162 < t2Of (rampSeries a b n) := by
  have h2 : 2 ≤ n := by omega
  rw [t2Of, rampSeries_length, r2Of_ramp a b n hb h2, one_mul]
  have hdf : (3 : ℚ) ≤ ((n - 2 : ℕ) : ℚ) := by
    have h3 : 3 ≤ n - 2 := by omega
    exact_mod_cast h3
  have hden : (0 : ℚ) < (1 + TINY) ^ 2 - 1 := by rw [TINY]; norm_num
  rw [lt_div_iff₀ hden]
  have hsmall : (162 : ℚ) * ((1 + TINY) ^ 2 - 1) < 3 := by rw [TINY]; norm_num
  linarith

/-- Σy over a constant series. -/
theorem replicate_sum (n : ℕ) (c : ℚ) : (List.replicate n c).sum = n * c := by
  simp [List.sum_replicate, nsmul_eq_mul]

/-- Σy² over a constant series. -/
theorem replicate_sqsum (n : ℕ) (c : ℚ) :
    ((List.replicate n c).map fun v => v ^ 2).sum = n * c ^ 2 := by
  simp [List.map_replicate, List.sum_replicate, nsmul_eq_mul]

/-- ssym vanishes on a constant series. -/
theorem regY_replicate (n : ℕ) (c : ℚ) : regY (List.replicate n c) = 0 := by
  rw [regY, List.length_replicate, replicate_sum, replicate_sqsum]
  ring

/-- scipy's zero-variance guard gives r = 0 on a constant series. -/
theorem r2Of_replicate (n : ℕ) (c : ℚ) : r2Of (List.replicate n c) = 0 := by
  rw [r2Of, if_pos (Or.inr (regY_replicate n c))]

/-- t vanishes on a constant series. -/
theorem t2Of_replicate (n : ℕ) (c : ℚ) : t2Of (List.replicate n c) = 0 := by
  rw [t2Of, r2Of_replicate, zero_mul, zero_div]

/-- The model decision is a t-test decision (fixed threshold 4 ∈ [3.8, 162]). -/
theorem tTestDecisionModel_isTTest : IsTTestDecision tTestDecisionModel := by
  intro l hl
  refine ⟨4, by norm_num, by norm_num, ?_⟩
  rw [tTestDecisionModel]
  exact decide_eq_true_iff

/-- C4, settled for every significance decision satisfying the t-test
characterization — in particular scipy's own: below 3 points the classifier
returns "insufficient_data"; with at least 3 points it returns "stable"
whenever the slope's p-value exceeds 0.05 (sig true), otherwise
"increasing"/"decreasing"/"stable" by the sign of the OLS slope; every
noise-free strictly increasing (arithmetic, positive-step) series of at
least 5 points is classified "increasing" (its t² exceeds every admissible
critical value), and every constant series of at least 3 points "stable"
(its t² is 0, below every admissible critical value). -/
theorem determine_trend_spec (sig : List ℚ → Bool) (values : List ℚ)
    (hsig : IsTTestDecision sig) :
    (values.length < 3 → determine_trend_with sig values = "insufficient_data")
    ∧ (3 ≤ values.length → sig values = true →
        determine_trend_with sig values = "stable")
    ∧ (3 ≤ values.length → sig values = false → 0 < slopeOf values →
        determine_trend_with sig values = "increasing")
    ∧ (3 ≤ values.length → sig values = false → slopeOf values < 0 →
        determine_trend_with sig values = "decreasing")
    ∧ (3 ≤ values.length → sig values = false → slopeOf values = 0 →
        determine_trend_with sig values = "stable")
    ∧ (∀ a b : ℚ, ∀ n : ℕ, 0 < b → 5 ≤ n →
        determine_trend_with sig (rampSeries a b n) = "increasing")
    ∧ (∀ c : ℚ, ∀ n : ℕ, 3 ≤ n →
        determine_trend_with sig (List.replicate n c) = "stable") := by
  refine ⟨?_, ?_, ?_, ?_, ?_, ?_, ?_⟩
  · intro h
    rw [determine_trend_with, if_pos h]
  · intro h hp
    rw [determine_trend_with, if_neg (not_lt.mpr h), hp, if_pos rfl]
  · intro h hp hs
    rw [determine_trend_with, if_neg (not_lt.mpr h), hp,
      if_neg Bool.false_ne_true, if_pos hs]
  · intro h hp hs
    rw [determine_trend_with, if_neg (not_lt.mpr h), hp, if_neg Bool.false_ne_true,
      if_neg (not_lt.mpr (le_of_lt hs)), if_pos hs]
  · intro h hp hs
    rw [determine_trend_with, if_neg (not_lt.mpr h), hp, if_neg Bool.false_ne_true,
      if_neg (not_lt.mpr (le_of_eq hs)), if_neg (not_lt.mpr (le_of_eq hs.symm))]
  · intro a b n hb h5
    have h2 : 2 ≤ n := by omega
    have hlen : ¬(rampSeries a b n).length < 3 := by rw [rampSeries_length]; omega
    obtain ⟨q, hq1, hq2, hiff⟩ :=
      hsig (rampSeries a b n) (by rw [rampSeries_length]; omega)
    have hbig : 162 < t2Of (rampSeries a b n) := t2Of_ramp_big a b n (ne_of_gt hb) h5
    have hfalse : sig (rampSeries a b n) = false := by
      cases hcase : sig (rampSeries a b n) with
      | false => rfl
      | true =>
        have hlt := hiff.mp hcase
        linarith
    have hslope : 0 < slopeOf (rampSeries a b n) := by
      rw [slopeOf_ramp a b n h2]
      exact hb
    rw [determine_trend_with, if_neg hlen, hfalse,
      if_neg Bool.false_ne_true, if_pos hslope]
  · intro c n h3
    have hlen : ¬(List.replicate n c).length < 3 := by rw [List.length_replicate]; omega
    obtain ⟨q, hq1, hq2, hiff⟩ :=
      hsig (List.replicate n c) (by rw [List.length_replicate]; omega)
    have htrue : sig (List.replicate n c) = true := by
      apply hiff.mpr
      rw [t2Of_replicate]
      linarith
    rw [determine_trend_with, if_neg hlen, htrue, if_pos rfl]

/-- Witness for C4: the model decision discharges the t-test hypothesis,
the ramp 0,1,2,3,4 is classified "increasing" and the constant series
7,7,7 "stable". -/
theorem determine_trend_spec_witness :
    determine_trend_with tTestDecisionModel (rampSeries 0 1 5) = "increasing"
    ∧ determine_trend_with tTestDecisionModel (List.replicate 3 (7 : ℚ)) = "stable" :=
  ⟨(determine_trend_spec tTestDecisionModel [] tTestDecisionModel_isTTest).2.2.2.2.2.1
      0 1 5 (by norm_num) (by norm_num),
   (determine_trend_spec tTestDecisionModel [] tTestDecisionModel_isTTest).2.2.2.2.2.2
      7 3 (by norm_num)⟩

end MediConnect
